import Mathlib

/-!
Shallow embedding of `drive_sync.py` (the `drive-sync` repository): the remote
path resolver (`get_or_create_folder_id`, `get_remote_path_id`), the remote
file locator (`find_remote_file`), the sync decision logic of `main`
(MD5 short-circuit, timestamp comparison, directional transfer choice,
download/export path), and the terminal exit behaviour of the process.

Remote state is modelled as a list of folders plus a fresh-id counter; remote
calls made by the resolver are recorded as an operation trace.  The decision
logic of `main` is modelled as a pure function from the located remote file,
the local file's MD5 digest and mtime, and the requested direction, to the
chosen action together with a trace of side effects (MD5 computation, remote
create/update/delete, media download/export, opening the local file for
writing).
-/

set_option autoImplicit false

namespace DriveSync

/-- Character-list test: does `hay` start with `needle`?  Used to model
Python's substring containment operator `in` on strings. -/
def charsStartWith : List Char → List Char → Bool
  | [], _ => true
  | _ :: _, [] => false
  | n :: ns, h :: hs => n == h && charsStartWith ns hs

/-- Character-list substring containment: does `needle` occur contiguously in
`hay`? -/
def charsContain (needle : List Char) : List Char → Bool
  | [] => charsStartWith needle []
  | h :: hs => charsStartWith needle (h :: hs) || charsContain needle hs

/-- Python's `needle in hay` on strings. -/
def strContains (hay needle : String) : Bool :=
  charsContain needle.data hay.data

/-- Line 178 of `drive_sync.py`: `'google-apps' in remote_file.get('mimeType', '')`. -/
def isNativeGoogleDoc (mime : String) : Bool :=
  strContains mime "google-apps"

/-- `GOOGLE_DOC_EXPORT_MAP` of `drive_sync.py` (lines 34-38): export MIME type
for each native Google document MIME type. -/
def googleDocExportMap : List (String × String) :=
  [("application/vnd.google-apps.document",
    "application/vnd.openxmlformats-officedocument.wordprocessingml.document"),
   ("application/vnd.google-apps.spreadsheet",
    "application/vnd.openxmlformats-officedocument.spreadsheetml.sheet"),
   ("application/vnd.google-apps.presentation",
    "application/vnd.openxmlformats-officedocument.presentationml.presentation")]

/-- Metadata of a remote file as returned by the Drive listing
(`files(id, name, md5Checksum, modifiedTime, webViewLink, mimeType)`).
`md5Checksum` is absent for native Google document types; `modifiedTime` is a
UTC timestamp modelled as an integer. -/
structure RemoteFile where
  fid : Nat
  name : String
  md5Checksum : Option String
  modifiedTime : Int
  webViewLink : String
  mimeType : String
  deriving DecidableEq

/-- `find_remote_file` (lines 84-93 of `drive_sync.py`), applied to the list of
results the Drive query returned: `None` on no result; with more than one
result, the first whose MIME type contains `google-apps`, falling back to the
first result; with exactly one result, that result. -/
def find_remote_file (files : List RemoteFile) : Option RemoteFile :=
  match files with
  | [] => none
  | f0 :: _ =>
    if files.length > 1 then
      match files.find? (fun f => isNativeGoogleDoc f.mimeType) with
      | some f => some f
      | none => some f0
    else some f0

/-- A folder stored remotely: identifier, name, parent identifier. -/
structure Folder where
  fid : Nat
  name : String
  parent : Nat
  deriving DecidableEq

/-- The remote folder hierarchy: the stored folders (in creation/listing
order) and a counter supplying fresh identifiers. -/
structure DriveState where
  folders : List Folder
  nextId : Nat
  deriving DecidableEq

/-- The Drive alias `'root'`, modelled as folder identifier `0`. -/
def rootFolderId : Nat := 0

/-- A remote call made by the path resolver: a listing query for a folder
name under a parent, or a folder creation. -/
inductive DriveOp where
  | listFolders : String → Nat → DriveOp
  | createFolder : String → Nat → DriveOp
  deriving DecidableEq

/-- Is this resolver operation a folder creation? -/
def isCreateOp : DriveOp → Bool
  | .listFolders _ _ => false
  | .createFolder _ _ => true

/-- The folders matching the listing query of `get_or_create_folder_id`
(line 68 of `drive_sync.py`): name equal, parent equal (all modelled folders
are untrashed folders). -/
def folderMatches (l : List Folder) (name : String) (parent : Nat) : List Folder :=
  l.filter (fun f => f.name == name && f.parent == parent)

/-- `get_or_create_folder_id` (lines 67-75 of `drive_sync.py`): list folders
with the given name under the parent; if any, return the first result's id
and leave the state unchanged; otherwise create a folder with a fresh id
under the parent and return the new id.  Also returns the trace of remote
calls made. -/
def get_or_create_folder_id (s : DriveState) (name : String) (parent : Nat) :
    Nat × DriveState × List DriveOp :=
  match folderMatches s.folders name parent with
  | f :: _ => (f.fid, s, [DriveOp.listFolders name parent])
  | [] =>
    (s.nextId,
     ⟨s.folders ++ [⟨s.nextId, name, parent⟩], s.nextId + 1⟩,
     [DriveOp.listFolders name parent, DriveOp.createFolder name parent])

/-- `get_remote_path_id` (lines 77-82 of `drive_sync.py`) generalised to an
arbitrary starting parent: walk the folder-name chain, skipping empty
segments, resolving each segment with `get_or_create_folder_id`.  Returns the
deepest folder's id, the final state, and the concatenated trace of remote
calls. -/
def get_remote_path_id (parts : List String) (parent : Nat) (s : DriveState) :
    Nat × DriveState × List DriveOp :=
  match parts with
  | [] => (parent, s, [])
  | part :: rest =>
    if part = "" then get_remote_path_id rest parent s
    else
      let r1 := get_or_create_folder_id s part parent
      let r2 := get_remote_path_id rest r1.1 r1.2.1
      (r2.1, r2.2.1, r1.2.2 ++ r2.2.2)

/-- The sync directions of the `--sync-direction` CLI flag. -/
inductive SyncDirection where
  | auto
  | localToRemote
  | remoteToLocal
  deriving DecidableEq

/-- The action `main` settles on for a located (or absent) remote file. -/
inductive SyncAction where
  | uploadNew
  | skipIdentical
  | updateBinary
  | recreateNative
  | downloadBinary
  | exportNative
  | skipNotNewer
  | unsupportedConversion
  deriving DecidableEq

/-- A side effect performed by `main` while deciding and executing the sync:
computing the local MD5 digest, remote file creation/update/deletion, media
download/export requests, and opening the local file for writing. -/
inductive SyncEffect where
  | computeLocalMd5
  | createRemoteFile
  | updateRemoteFile
  | deleteRemoteFile
  | getRemoteMedia
  | exportRemoteMedia
  | openLocalForWrite
  deriving DecidableEq

/-- Result of the decision logic of `main`: the chosen action, the trace of
side effects in the order performed, and the effective direction when the
timestamp comparison was reached (lines 197-263). -/
structure SyncResult where
  action : SyncAction
  effects : List SyncEffect
  effDir : Option SyncDirection
  deriving DecidableEq

/-- Lines 197-263 of `drive_sync.py`: the timestamp comparison and the
directional transfer choice, reached once the MD5 short-circuit did not fire.
`mdEffects` are the effects already performed before this point (the MD5
computation in the non-native branch). -/
def timeComparisonStep (r : RemoteFile) (localMtime : Int)
    (direction : SyncDirection) (mdEffects : List SyncEffect) : SyncResult :=
  let isNative := isNativeGoogleDoc r.mimeType
  let effDir :=
    if direction = SyncDirection.auto then
      if localMtime > r.modifiedTime then SyncDirection.localToRemote
      else SyncDirection.remoteToLocal
    else direction
  if effDir = SyncDirection.localToRemote ∧ localMtime > r.modifiedTime then
    if isNative then
      ⟨SyncAction.recreateNative,
       mdEffects ++ [SyncEffect.deleteRemoteFile, SyncEffect.createRemoteFile],
       some effDir⟩
    else
      ⟨SyncAction.updateBinary, mdEffects ++ [SyncEffect.updateRemoteFile], some effDir⟩
  else if effDir = SyncDirection.remoteToLocal ∧ r.modifiedTime > localMtime then
    if isNative then
      match googleDocExportMap.lookup r.mimeType with
      | none => ⟨SyncAction.unsupportedConversion, mdEffects, some effDir⟩
      | some _ =>
        ⟨SyncAction.exportNative,
         mdEffects ++ [SyncEffect.exportRemoteMedia, SyncEffect.openLocalForWrite],
         some effDir⟩
    else
      ⟨SyncAction.downloadBinary,
       mdEffects ++ [SyncEffect.getRemoteMedia, SyncEffect.openLocalForWrite],
       some effDir⟩
  else ⟨SyncAction.skipNotNewer, mdEffects, some effDir⟩

/-- Lines 166-263 of `drive_sync.py`: the sync decision for a located remote
file (`none` when the locator found nothing), the local file's MD5 digest and
mtime, and the requested direction.  No remote match → upload.  Native remote
→ skip the MD5 comparison and go to the timestamp comparison.  Otherwise
compute the local MD5; equal to the remote checksum → skip; else timestamp
comparison. -/
def syncDecision (remote : Option RemoteFile) (localMd5 : String)
    (localMtime : Int) (direction : SyncDirection) : SyncResult :=
  match remote with
  | none => ⟨SyncAction.uploadNew, [SyncEffect.createRemoteFile], none⟩
  | some r =>
    if isNativeGoogleDoc r.mimeType then
      timeComparisonStep r localMtime direction []
    else
      if some localMd5 = r.md5Checksum then
        ⟨SyncAction.skipIdentical, [SyncEffect.computeLocalMd5], none⟩
      else
        timeComparisonStep r localMtime direction [SyncEffect.computeLocalMd5]

/-- A terminal path of a `drive_sync.py` run: the line-133 invalid-local-file
check, the line-53 missing-credential exit, the three `except` handlers of
`main` (lines 265-270), or a normal completion (success or skip summary). -/
inductive RunOutcome where
  | invalidLocalFile
  | missingCredentials
  | apiError
  | localFileVanished
  | unknownError
  | completed
  deriving DecidableEq

/-- The process exit status of each terminal path: only the
missing-credential path calls `sys.exit(1)` (line 53); the invalid-local-file
check and all three `except` handlers print a message and `return` from
`main`, so the interpreter exits with status `0`, as it does on normal
completion. -/
def processExitCode : RunOutcome → Nat
  | RunOutcome.missingCredentials => 1
  | _ => 0

/-! Helper lemmas. -/

/-- The `effDir` field of `timeComparisonStep` is always the resolved
effective direction. -/
theorem timeComparisonStep_effDir (r : RemoteFile) (localMtime : Int)
    (direction : SyncDirection) (mdEffects : List SyncEffect) :
    (timeComparisonStep r localMtime direction mdEffects).effDir
      = some (if direction = SyncDirection.auto then
          if localMtime > r.modifiedTime then SyncDirection.localToRemote
          else SyncDirection.remoteToLocal
        else direction) := by
  simp only [timeComparisonStep]
  split_ifs <;> first | rfl | (split <;> rfl)

/-- If filtering a list leaves exactly one element, `find?` returns it. -/
theorem find?_of_filter_singleton {α : Type} (p : α → Bool) :
    ∀ (l : List α) (f : α), l.filter p = [f] → l.find? p = some f := by
  intro l
  induction l with
  | nil => intro f h; simp [List.filter] at h
  | cons a t ih =>
    intro f h
    by_cases hp : p a
    · rw [List.filter_cons_of_pos hp] at h
      obtain ⟨rfl, -⟩ : a = f ∧ t.filter p = [] := by
        constructor
        · exact (List.cons_eq_cons.mp h).1
        · exact (List.cons_eq_cons.mp h).2
      rw [List.find?_cons_of_pos _ hp]
    · rw [List.filter_cons_of_neg hp] at h
      rw [List.find?_cons_of_neg _ hp]
      exact ih f h

/-- `folderMatches` distributes over list append. -/
theorem folderMatches_append (l1 l2 : List Folder) (name : String) (parent : Nat) :
    folderMatches (l1 ++ l2) name parent
      = folderMatches l1 name parent ++ folderMatches l2 name parent := by
  simp [folderMatches, List.filter_append]

/-- The resolver only appends to the stored folder list. -/
theorem get_remote_path_id_folders_mono (parts : List String) :
    ∀ (parent : Nat) (s : DriveState),
      ∃ ext, (get_remote_path_id parts parent s).2.1.folders = s.folders ++ ext := by
  induction parts with
  | nil => intro parent s; exact ⟨[], by simp [get_remote_path_id]⟩
  | cons part rest ih =>
    intro parent s
    by_cases hp : part = ""
    · simpa [get_remote_path_id, hp] using ih parent s
    · simp only [get_remote_path_id, hp, if_neg, ite_false]
      cases hm : folderMatches s.folders part parent with
      | cons f t =>
        simpa [get_or_create_folder_id, hm] using ih f.fid s
      | nil =>
        obtain ⟨ext, hext⟩ :=
          ih s.nextId ⟨s.folders ++ [⟨s.nextId, part, parent⟩], s.nextId + 1⟩
        exact ⟨⟨s.nextId, part, parent⟩ :: ext, by
          simp [get_or_create_folder_id, hm, hext]⟩

/-- Replaying a resolved chain in the state the first resolution produced is
the identity: same final id, same state, and the trace of the second run
contains no folder creation. -/
theorem get_remote_path_id_replay (parts : List String) :
    ∀ (parent : Nat) (s : DriveState),
      ∃ ops2,
        get_remote_path_id parts parent (get_remote_path_id parts parent s).2.1
          = ((get_remote_path_id parts parent s).1,
             (get_remote_path_id parts parent s).2.1, ops2)
        ∧ ∀ op ∈ ops2, isCreateOp op = false := by
  induction parts with
  | nil =>
    intro parent s
    exact ⟨[], rfl, by simp⟩
  | cons part rest ih =>
    intro parent s
    by_cases hp : part = ""
    · simpa [get_remote_path_id, hp] using ih parent s
    · cases hm : folderMatches s.folders part parent with
      | cons f t =>
        rcases hr : get_remote_path_id rest f.fid s with ⟨i1, s1, ops1⟩
        obtain ⟨ext, hext⟩ := get_remote_path_id_folders_mono rest f.fid s
        rw [hr] at hext
        obtain ⟨ops2, hrep, hnc⟩ := ih f.fid s
        rw [hr] at hrep
        have h1 : get_remote_path_id (part :: rest) parent s
            = (i1, s1, DriveOp.listFolders part parent :: ops1) := by
          simp [get_remote_path_id, hp, get_or_create_folder_id, hm, hr]
        have hms1 : folderMatches s1.folders part parent
            = f :: (t ++ folderMatches ext part parent) := by
          have hf : s1.folders = s.folders ++ ext := hext
          rw [hf, folderMatches_append, hm, List.cons_append]
        have h2 : get_remote_path_id (part :: rest) parent s1
            = (i1, s1, DriveOp.listFolders part parent :: ops2) := by
          simp only [get_remote_path_id, hp, ite_false, if_neg, not_false_iff,
            get_or_create_folder_id, hms1]
          simp at hrep
          simp [hrep]
        refine ⟨DriveOp.listFolders part parent :: ops2, ?_, ?_⟩
        · rw [h1]
          simpa using h2
        · intro op hop
          rcases List.mem_cons.mp hop with h | h
          · subst h; rfl
          · exact hnc op h
      | nil =>
        rcases hr : get_remote_path_id rest s.nextId
            ⟨s.folders ++ [⟨s.nextId, part, parent⟩], s.nextId + 1⟩ with ⟨i1, s1, ops1⟩
        obtain ⟨ext, hext⟩ := get_remote_path_id_folders_mono rest s.nextId
            ⟨s.folders ++ [⟨s.nextId, part, parent⟩], s.nextId + 1⟩
        rw [hr] at hext
        obtain ⟨ops2, hrep, hnc⟩ := ih s.nextId
            ⟨s.folders ++ [⟨s.nextId, part, parent⟩], s.nextId + 1⟩
        rw [hr] at hrep
        have h1 : get_remote_path_id (part :: rest) parent s
            = (i1, s1,
               DriveOp.listFolders part parent :: DriveOp.createFolder part parent :: ops1) := by
          simp [get_remote_path_id, hp, get_or_create_folder_id, hm, hr]
        have hsingle : folderMatches [⟨s.nextId, part, parent⟩] part parent
            = [⟨s.nextId, part, parent⟩] := by
          simp [folderMatches]
        have hms1 : folderMatches s1.folders part parent
            = ⟨s.nextId, part, parent⟩ :: folderMatches ext part parent := by
          have hf : s1.folders = (s.folders ++ [⟨s.nextId, part, parent⟩]) ++ ext := hext
          rw [hf, folderMatches_append, folderMatches_append, hm, hsingle]
          rfl
        have h2 : get_remote_path_id (part :: rest) parent s1
            = (i1, s1, DriveOp.listFolders part parent :: ops2) := by
          simp only [get_remote_path_id, hp, ite_false, if_neg, not_false_iff,
            get_or_create_folder_id, hms1]
          simp at hrep
          simp [hrep]
        refine ⟨DriveOp.listFolders part parent :: ops2, ?_, ?_⟩
        · rw [h1]
          simpa using h2
        · intro op hop
          rcases List.mem_cons.mp hop with h | h
          · subst h; rfl
          · exact hnc op h

/-- Helper for C6: once the timestamp comparison is reached with a
non-`auto` direction whose source side is not strictly newer, the step
reports `skipNotNewer` and performs no transfer effect. -/
theorem timeComparisonStep_not_newer (r : RemoteFile) (lm : Int)
    (dir : SyncDirection) (mdEffects : List SyncEffect)
    (hdir : dir = SyncDirection.localToRemote ∨ dir = SyncDirection.remoteToLocal)
    (hl : dir = SyncDirection.localToRemote → ¬ lm > r.modifiedTime)
    (hr : dir = SyncDirection.remoteToLocal → ¬ r.modifiedTime > lm) :
    timeComparisonStep r lm dir mdEffects
      = ⟨SyncAction.skipNotNewer, mdEffects, some dir⟩ := by
  rcases hdir with rfl | rfl
  · simp [timeComparisonStep, hl rfl]
  · simp [timeComparisonStep, hr rfl]

/-! Claim theorems. -/

/-- C1: for every local file and remote match where the remote file is not a
native converted type and the local content digest equals the remote content
digest, the decision is `skip` with no transfer effect, regardless of the
local and remote modification timestamps and of the requested direction. -/
theorem C1_equal_digest_always_skips (r : RemoteFile) (localMd5 : String)
    (localMtime : Int) (direction : SyncDirection)
    (hnat : isNativeGoogleDoc r.mimeType = false)
    (hmd : r.md5Checksum = some localMd5) :
    syncDecision (some r) localMd5 localMtime direction
      = ⟨SyncAction.skipIdentical, [SyncEffect.computeLocalMd5], none⟩ := by
  simp [syncDecision, hnat, hmd]

/-- C1 witness: a non-native remote with matching digest is skipped even when
the local file is older and an explicit local-to-remote direction was
requested. -/
theorem C1_equal_digest_always_skips_witness :
    syncDecision (some ⟨1, "a.txt", some "abc", 50, "L", "text/plain"⟩) "abc" 3
        SyncDirection.localToRemote
      = ⟨SyncAction.skipIdentical, [SyncEffect.computeLocalMd5], none⟩ :=
  C1_equal_digest_always_skips ⟨1, "a.txt", some "abc", 50, "L", "text/plain"⟩ "abc" 3
    SyncDirection.localToRemote (by decide) (by decide)

/-- C2: in every `auto` run that reaches the timestamp comparison, the
effective direction is local-to-remote exactly when the local mtime strictly
exceeds the remote mtime, and remote-to-local otherwise (ties included). -/
theorem C2_auto_direction_resolution (r : RemoteFile) (localMd5 : String)
    (localMtime : Int)
    (hreach : isNativeGoogleDoc r.mimeType = true ∨ some localMd5 ≠ r.md5Checksum) :
    (syncDecision (some r) localMd5 localMtime SyncDirection.auto).effDir
      = some (if localMtime > r.modifiedTime then SyncDirection.localToRemote
              else SyncDirection.remoteToLocal) := by
  by_cases hn : isNativeGoogleDoc r.mimeType
  · simp [syncDecision, hn, timeComparisonStep_effDir]
  · rcases hreach with h | h
    · exact absurd h (by simpa using hn)
    · simp [syncDecision, hn, h, timeComparisonStep_effDir]

/-- C2 witness: with equal mtimes (a tie) and a native remote, `auto`
resolves to remote-to-local. -/
theorem C2_auto_direction_resolution_witness :
    (syncDecision (some ⟨1, "a", none, 5, "L", "application/vnd.google-apps.document"⟩)
        "x" 5 SyncDirection.auto).effDir
      = some SyncDirection.remoteToLocal := by
  simpa using C2_auto_direction_resolution
    ⟨1, "a", none, 5, "L", "application/vnd.google-apps.document"⟩ "x" 5 (Or.inl (by decide))

/-- C3: resolving a folder chain a second time against the remote state
produced by the first resolution yields the same final folder identifier and
the same state, and the second run's trace contains no folder creation. -/
theorem C3_resolve_chain_idempotent (parts : List String) (s : DriveState) :
    ∃ ops2,
      get_remote_path_id parts rootFolderId
          (get_remote_path_id parts rootFolderId s).2.1
        = ((get_remote_path_id parts rootFolderId s).1,
           (get_remote_path_id parts rootFolderId s).2.1, ops2)
      ∧ ∀ op ∈ ops2, isCreateOp op = false :=
  get_remote_path_id_replay parts rootFolderId s

/-- C4: for every native remote match, the digest branch is never reached:
the local MD5 is not computed and the run proceeds to the timestamp
comparison. -/
theorem C4_native_skips_digest_comparison (r : RemoteFile) (localMd5 : String)
    (localMtime : Int) (direction : SyncDirection)
    (hn : isNativeGoogleDoc r.mimeType = true) :
    SyncEffect.computeLocalMd5 ∉ (syncDecision (some r) localMd5 localMtime direction).effects
    ∧ ((syncDecision (some r) localMd5 localMtime direction).effDir).isSome = true := by
  constructor
  · simp only [syncDecision, hn, if_true]
    simp only [timeComparisonStep, hn]
    split_ifs <;> (try split) <;> simp
  · simp [syncDecision, hn, timeComparisonStep_effDir]

/-- C4 witness: a concrete native remote match with `auto` direction computes
no local MD5 and reaches the timestamp comparison. -/
theorem C4_native_skips_digest_comparison_witness :
    SyncEffect.computeLocalMd5 ∉ (syncDecision
        (some ⟨1, "a", none, 5, "L", "application/vnd.google-apps.spreadsheet"⟩)
        "x" 9 SyncDirection.auto).effects
    ∧ ((syncDecision
        (some ⟨1, "a", none, 5, "L", "application/vnd.google-apps.spreadsheet"⟩)
        "x" 9 SyncDirection.auto).effDir).isSome = true :=
  C4_native_skips_digest_comparison
    ⟨1, "a", none, 5, "L", "application/vnd.google-apps.spreadsheet"⟩ "x" 9
    SyncDirection.auto (by decide)

/-- C5: when the effective direction is local-to-remote, the remote match is
native, and the local mtime is strictly newer, the action is
`recreateNative` — delete then create, never an in-place binary update. -/
theorem C5_native_newer_local_recreates (r : RemoteFile) (localMd5 : String)
    (localMtime : Int) (direction : SyncDirection)
    (hn : isNativeGoogleDoc r.mimeType = true)
    (ht : localMtime > r.modifiedTime)
    (hd : direction ≠ SyncDirection.remoteToLocal) :
    syncDecision (some r) localMd5 localMtime direction
      = ⟨SyncAction.recreateNative,
         [SyncEffect.deleteRemoteFile, SyncEffect.createRemoteFile],
         some SyncDirection.localToRemote⟩ := by
  cases direction with
  | auto => simp [syncDecision, hn, timeComparisonStep, ht]
  | localToRemote => simp [syncDecision, hn, timeComparisonStep, ht]
  | remoteToLocal => exact absurd rfl hd

/-- C5 witness: a native remote with strictly newer local mtime under `auto`
is recreated (delete then create), not updated in place. -/
theorem C5_native_newer_local_recreates_witness :
    syncDecision (some ⟨1, "a", none, 5, "L", "application/vnd.google-apps.document"⟩)
        "x" 9 SyncDirection.auto
      = ⟨SyncAction.recreateNative,
         [SyncEffect.deleteRemoteFile, SyncEffect.createRemoteFile],
         some SyncDirection.localToRemote⟩ :=
  C5_native_newer_local_recreates
    ⟨1, "a", none, 5, "L", "application/vnd.google-apps.document"⟩ "x" 9
    SyncDirection.auto (by decide) (by decide) (by decide)

/-- C6: when a directional transfer is explicitly requested but the source
side's mtime is not strictly newer than the destination side's, and the run
reaches the timestamp comparison, the action is `skipNotNewer` and no
transfer effect (upload, update, delete, download, export, local write) is
performed — at most the MD5 computation happened. -/
theorem C6_explicit_direction_not_newer_skips (r : RemoteFile) (localMd5 : String)
    (localMtime : Int) (direction : SyncDirection)
    (hdir : direction = SyncDirection.localToRemote ∨ direction = SyncDirection.remoteToLocal)
    (hreach : isNativeGoogleDoc r.mimeType = true ∨ some localMd5 ≠ r.md5Checksum)
    (hl : direction = SyncDirection.localToRemote → ¬ localMtime > r.modifiedTime)
    (hr : direction = SyncDirection.remoteToLocal → ¬ r.modifiedTime > localMtime) :
    (syncDecision (some r) localMd5 localMtime direction).action = SyncAction.skipNotNewer
    ∧ ∀ e ∈ (syncDecision (some r) localMd5 localMtime direction).effects,
        e = SyncEffect.computeLocalMd5 := by
  by_cases hn : isNativeGoogleDoc r.mimeType
  · rw [show syncDecision (some r) localMd5 localMtime direction
        = timeComparisonStep r localMtime direction [] by simp [syncDecision, hn],
      timeComparisonStep_not_newer r localMtime direction [] hdir hl hr]
    simp
  · rcases hreach with h | h
    · exact absurd h (by simpa using hn)
    · rw [show syncDecision (some r) localMd5 localMtime direction
          = timeComparisonStep r localMtime direction [SyncEffect.computeLocalMd5] by
            simp [syncDecision, hn, h],
        timeComparisonStep_not_newer r localMtime direction [SyncEffect.computeLocalMd5] hdir hl hr]
      simp

/-- C6 witness: remote-to-local explicitly requested with remote mtime equal
to the local mtime and differing digests gives `skipNotNewer` with no
transfer effect. -/
theorem C6_explicit_direction_not_newer_skips_witness :
    (syncDecision (some ⟨1, "a.txt", some "abc", 7, "L", "text/plain"⟩) "zzz" 7
        SyncDirection.remoteToLocal).action = SyncAction.skipNotNewer
    ∧ ∀ e ∈ (syncDecision (some ⟨1, "a.txt", some "abc", 7, "L", "text/plain"⟩) "zzz" 7
        SyncDirection.remoteToLocal).effects,
        e = SyncEffect.computeLocalMd5 :=
  C6_explicit_direction_not_newer_skips ⟨1, "a.txt", some "abc", 7, "L", "text/plain"⟩
    "zzz" 7 SyncDirection.remoteToLocal (Or.inr rfl) (Or.inr (by decide))
    (by decide) (by decide)

/-- C7: when the locator's query returns two or more results of which exactly
one is tagged as a native converted document, the locator returns that
native result, regardless of the order of the results. -/
theorem C7_locator_prefers_unique_native (files : List RemoteFile) (f : RemoteFile)
    (hlen : 2 ≤ files.length)
    (hfil : files.filter (fun g => isNativeGoogleDoc g.mimeType) = [f]) :
    find_remote_file files = some f := by
  cases files with
  | nil => simp at hlen
  | cons f0 rest =>
    cases rest with
    | nil => simp at hlen
    | cons f1 rest2 =>
      have hfind := find?_of_filter_singleton (fun g => isNativeGoogleDoc g.mimeType)
        (f0 :: f1 :: rest2) f hfil
      simp [find_remote_file, hfind]

/-- C7 witness: with the native result listed second among two results, the
locator still returns it. -/
theorem C7_locator_prefers_unique_native_witness :
    find_remote_file [⟨1, "a", some "m", 0, "L", "text/plain"⟩,
        ⟨2, "a", none, 0, "L", "application/vnd.google-apps.document"⟩]
      = some ⟨2, "a", none, 0, "L", "application/vnd.google-apps.document"⟩ :=
  C7_locator_prefers_unique_native
    [⟨1, "a", some "m", 0, "L", "text/plain"⟩,
     ⟨2, "a", none, 0, "L", "application/vnd.google-apps.document"⟩]
    ⟨2, "a", none, 0, "L", "application/vnd.google-apps.document"⟩
    (by decide) (by decide)

/-- C8 counterexample: the claim says the process exits with a non-zero
status on a transport (API) error, but the `except HttpError` handler of
`main` prints the error panel and returns normally, so the process exit
status is `0`. -/
theorem C8_counterexample : ¬ processExitCode RunOutcome.apiError ≠ 0 := by
  decide

/-- C8 (amended): the process exits non-zero only on the missing-credential
path; the invalid-local-file check, the transport-error handler, the
local-file-vanished handler and the unknown-error handler all print a
human-readable message and exit zero, as does normal completion. -/
theorem C8_exit_codes_amended :
    ∀ o : RunOutcome, processExitCode o ≠ 0 ↔ o = RunOutcome.missingCredentials := by
  intro o
  cases o <;> simp [processExitCode]

/-- C9: in a download-direction run where the remote match is native and its
MIME type has no entry in the export map, the run reports an unsupported
conversion and the local file is never opened for writing. -/
theorem C9_unsupported_export_aborts (r : RemoteFile) (localMd5 : String)
    (localMtime : Int) (direction : SyncDirection)
    (hn : isNativeGoogleDoc r.mimeType = true)
    (ht : r.modifiedTime > localMtime)
    (hd : direction ≠ SyncDirection.localToRemote)
    (hexp : googleDocExportMap.lookup r.mimeType = none) :
    (syncDecision (some r) localMd5 localMtime direction).action
        = SyncAction.unsupportedConversion
    ∧ SyncEffect.openLocalForWrite ∉ (syncDecision (some r) localMd5 localMtime direction).effects := by
  cases direction with
  | localToRemote => exact absurd rfl hd
  | auto =>
    have hlt : ¬ localMtime > r.modifiedTime := Int.lt_asymm ht
    simp [syncDecision, hn, timeComparisonStep, hlt, ht, hexp]
  | remoteToLocal =>
    simp [syncDecision, hn, timeComparisonStep, ht, hexp]

/-- C9 witness: a native Google Form (no export mapping) that is newer
remotely, under `auto`, aborts with an unsupported conversion and no local
write. -/
theorem C9_unsupported_export_aborts_witness :
    (syncDecision (some ⟨1, "f", none, 9, "L", "application/vnd.google-apps.form"⟩)
        "x" 2 SyncDirection.auto).action = SyncAction.unsupportedConversion
    ∧ SyncEffect.openLocalForWrite ∉ (syncDecision
        (some ⟨1, "f", none, 9, "L", "application/vnd.google-apps.form"⟩)
        "x" 2 SyncDirection.auto).effects :=
  C9_unsupported_export_aborts
    ⟨1, "f", none, 9, "L", "application/vnd.google-apps.form"⟩ "x" 2
    SyncDirection.auto (by decide) (by decide) (by decide) (by decide)

/-- C10: resolving a chain whose segments are all empty strings (the empty
chain included) makes no remote call at all and returns the root folder
identifier. -/
theorem C10_empty_chain_no_calls (parts : List String) (s : DriveState)
    (h : ∀ part ∈ parts, part = "") :
    get_remote_path_id parts rootFolderId s = (rootFolderId, s, []) := by
  induction parts with
  | nil => rfl
  | cons part rest ih =>
    have hp : part = "" := h part (by simp)
    have hrest : ∀ q ∈ rest, q = "" := fun q hq => h q (by simp [hq])
    simp [get_remote_path_id, hp, ih hrest]

/-- C10 witness: the two-segment all-empty chain resolves to the root with an
empty trace on a concrete state. -/
theorem C10_empty_chain_no_calls_witness :
    get_remote_path_id ["", ""] rootFolderId ⟨[⟨5, "x", 0⟩], 6⟩
      = (rootFolderId, ⟨[⟨5, "x", 0⟩], 6⟩, []) :=
  C10_empty_chain_no_calls ["", ""] ⟨[⟨5, "x", 0⟩], 6⟩ (by decide)

end DriveSync
